import Mathlib

/-!
Shallow embedding of the tool-dispatch and session-lifecycle subsystem of
the `autotest` MCP server (TypeScript sources under `src/`), together with
theorems settling the spec claims about it.

Conventions of the embedding:
* JavaScript runtime values are modelled by the inductive `JSVal`
  (null / undefined / boolean / number / string / array / object).
* `async` functions that can `throw` are modelled as functions into
  `Except String _` (the string is the thrown `Error`'s `message`).
* External-process effects (`exec`, `spawn`, `setTimeout` polling) are
  modelled by explicit outcome parameters; where a claim needs the number
  of effect invocations, the embedded function additionally returns those
  counters (the first component always mirrors the source's return value).
* JavaScript `Map` objects are modelled as association lists with
  insert-or-replace-in-place semantics (`mapSet`).
-/

/-- Model of a JavaScript runtime value. -/
inductive JSVal : Type where
  | vNull : JSVal
  | vUndefined : JSVal
  | vBool : Bool → JSVal
  | vNum : Int → JSVal
  | vStr : String → JSVal
  | vArr : List JSVal → JSVal
  | vObj : List (String × JSVal) → JSVal

namespace JSVal

/-- JavaScript truthiness (`Boolean(v)`); objects and arrays are always truthy. -/
def truthy : JSVal → Bool
  | vNull => false
  | vUndefined => false
  | vBool b => b
  | vNum n => n != 0
  | vStr s => s ≠ ""
  | vArr _ => true
  | vObj _ => true

/-- JavaScript `typeof v` (note `typeof null === "object"`). -/
def typeOf : JSVal → String
  | vNull => "object"
  | vUndefined => "undefined"
  | vBool _ => "boolean"
  | vNum _ => "number"
  | vStr _ => "string"
  | vArr _ => "object"
  | vObj _ => "object"

/-- Property access `v.k`: a named field of a plain object, `undefined`
otherwise (the model carries no properties on arrays or primitives). -/
def getField : JSVal → String → JSVal
  | vObj fields, k =>
    match fields.find? (fun p => p.1 = k) with
    | some p => p.2
    | none => vUndefined
  | _, _ => vUndefined

/-- `Array.isArray(v)`. -/
def isArrayV : JSVal → Bool
  | vArr _ => true
  | _ => false

/-- `v === null`. -/
def isNullV : JSVal → Bool
  | vNull => true
  | _ => false

/-- Structural equality on values, modelling JavaScript `===` on the
primitives that actually occur in schema enums (strings / numbers /
booleans); on arrays and objects it is structural where JS would compare
references, which does not matter for the claims proved below. -/
def beqVal : JSVal → JSVal → Bool
  | vNull, vNull => true
  | vUndefined, vUndefined => true
  | vBool a, vBool b => a == b
  | vNum a, vNum b => a == b
  | vStr a, vStr b => a == b
  | vArr a, vArr b => beqList a b
  | vObj a, vObj b => beqFields a b
  | _, _ => false
where
  beqList : List JSVal → List JSVal → Bool
    | [], [] => true
    | x :: xs, y :: ys => beqVal x y && beqList xs ys
    | _, _ => false
  beqFields : List (String × JSVal) → List (String × JSVal) → Bool
    | [], [] => true
    | (k, x) :: xs, (l, y) :: ys => k == l && beqVal x y && beqFields xs ys
    | _, _ => false

instance : BEq JSVal := ⟨beqVal⟩

end JSVal

/-- A run of `n` spaces (for the JSON pretty-printer model). -/
def spaces (n : Nat) : String := String.mk (List.replicate n ' ')

/-- Model of the string-escaping done by `JSON.stringify` for the
characters that matter here. -/
def jsonEscape (s : String) : String :=
  s.data.foldl (fun acc c =>
    acc ++ (if c = '"' then "\\\"" else if c = '\\' then "\\\\"
            else if c = '\n' then "\\n" else if c = '\t' then "\\t"
            else if c = '\r' then "\\r" else String.mk [c])) ""

mutual

/-- Model of `JSON.stringify(v, null, 2)` at nesting depth `d`;
`none` models the `undefined` result (skipped object entries). -/
def jsonStr : JSVal → Nat → Option String
  | .vUndefined, _ => none
  | .vNull, _ => some "null"
  | .vBool b, _ => some (if b then "true" else "false")
  | .vNum n, _ => some (toString n)
  | .vStr s, _ => some ("\"" ++ jsonEscape s ++ "\"")
  | .vArr [], _ => some "[]"
  | .vArr (x :: xs), d =>
    let items := jsonStrList (x :: xs) (d + 1)
    some ("[\n" ++ String.intercalate ",\n"
        (items.map (fun it => spaces (2 * (d + 1)) ++ it))
      ++ "\n" ++ spaces (2 * d) ++ "]")
  | .vObj fields, d =>
    let entries := jsonStrFields fields (d + 1)
    if entries.isEmpty then some "\x7b\x7d"
    else
      some ("\x7b\n" ++ String.intercalate ",\n"
          (entries.map (fun it => spaces (2 * (d + 1)) ++ it))
        ++ "\n" ++ spaces (2 * d) ++ "\x7d")

/-- Array elements: `undefined` serializes as `null`. -/
def jsonStrList : List JSVal → Nat → List String
  | [], _ => []
  | x :: xs, d => ((jsonStr x d).getD "null") :: jsonStrList xs d

/-- Object entries: entries whose value serializes to `undefined` are skipped. -/
def jsonStrFields : List (String × JSVal) → Nat → List String
  | [], _ => []
  | (k, v) :: rest, d =>
    match jsonStr v d with
    | none => jsonStrFields rest d
    | some sv => ("\"" ++ jsonEscape k ++ "\": " ++ sv) :: jsonStrFields rest d

end

/-- `JSON.stringify(v, null, 2)` as used by the router (top level is always
an object or array there, so the `undefined` case is never hit; we default
it to the empty string). -/
def jsonStringify (v : JSVal) : String := (jsonStr v 0).getD ""

mutual

/-- Model of JavaScript `String(v)` for the values the router's fallback
branch can receive (non-object, non-string values, plus `null`). -/
def jsToString : JSVal → String
  | .vNull => "null"
  | .vUndefined => "undefined"
  | .vBool b => if b then "true" else "false"
  | .vNum n => toString n
  | .vStr s => s
  | .vArr xs => String.intercalate "," (jsToStringList xs)
  | .vObj _ => "[object Object]"

/-- Elementwise `String(·)` (for `Array.prototype.toString`). -/
def jsToStringList : List JSVal → List String
  | [] => []
  | x :: xs => jsToString x :: jsToStringList xs

end

/-- JavaScript `a || b` on optional strings (`""` is falsy). -/
def jsOrStr (a : Option String) (b : String) : String :=
  match a with
  | some s => if s = "" then b else s
  | none => b

/-- `s.includes(sub)` (substring containment). -/
def strIncludes (s sub : String) : Bool :=
  decide (sub.data <:+: s.data)

/-- `Map.prototype.set`: replace in place if the key is present, append
otherwise (JavaScript `Map`s preserve insertion order). -/
def mapSet {α : Type} (m : List (String × α)) (k : String) (v : α) :
    List (String × α) :=
  match m with
  | [] => [(k, v)]
  | (k', v') :: rest =>
    if k' = k then (k, v) :: rest else (k', v') :: mapSet rest k v

/-- `Map.prototype.get` (as an `Option`). -/
def mapGet {α : Type} (m : List (String × α)) (k : String) : Option α :=
  match m.find? (fun p => p.1 = k) with
  | some p => some p.2
  | none => none

/-- `Map.prototype.has`. -/
def mapHas {α : Type} (m : List (String × α)) (k : String) : Bool :=
  (mapGet m k).isSome

/-- `Map.prototype.delete` (returns the updated map; the entry count drops
by one exactly when the key was present). -/
def mapDelete {α : Type} (m : List (String × α)) (k : String) :
    List (String × α) :=
  match m with
  | [] => []
  | (k', v') :: rest =>
    if k' = k then rest else (k', v') :: mapDelete rest k

theorem mapGet_mapSet_self {α : Type} (m : List (String × α)) (k : String) (v : α) :
    mapGet (mapSet m k v) k = some v := by
  induction m with
  | nil => simp [mapSet, mapGet]
  | cons hd tl ih =>
    obtain ⟨k', v'⟩ := hd
    by_cases h : k' = k
    · subst h; simp [mapSet, mapGet]
    · simp only [mapSet, if_neg h]
      simpa [mapGet, List.find?, h] using ih

theorem mapSet_length_of_has {α : Type} (m : List (String × α)) (k : String) (v : α)
    (h : mapHas m k = true) : (mapSet m k v).length = m.length := by
  induction m with
  | nil => simp [mapHas, mapGet] at h
  | cons hd tl ih =>
    obtain ⟨k', v'⟩ := hd
    by_cases hk : k' = k
    · subst hk; simp [mapSet]
    · simp only [mapSet, if_neg hk, List.length_cons]
      have h' : mapHas tl k = true := by
        simpa [mapHas, mapGet, List.find?, hk] using h
      simp [ih h']

/-! ## Tool registry (`src/server/ToolRegistry.ts`) and the input schemas
validated by the protocol front door (`MCPServer.validateToolArguments`). -/

/-- One property of a tool's `inputSchema` (`type`, optional `enum`);
other schema keywords are not consulted by the validator. -/
structure PropSchema where
  type : Option String
  enum : Option (List JSVal)

/-- A tool's `inputSchema` (`type: "object"` with named `properties` and an
optional `required` list). -/
structure InputSchema where
  properties : List (String × PropSchema)
  required : Option (List String)

/-- `RegisteredTool` (`ToolRegistry.ts`): an `MCPToolDefinition` plus the
handler and category. The handler is `(args) => result | throws message`. -/
structure RegisteredTool where
  name : String
  description : String
  inputSchema : InputSchema
  category : String
  handler : JSVal → Except String JSVal

namespace ToolRegistry

/-- The registry's backing store: `private tools = new Map<string, RegisteredTool>()`. -/
def Registry : Type := List (String × RegisteredTool)

/-- A fresh registry (`new ToolRegistry()`). -/
def empty : Registry := []

/-- `registerTool(tool)`: `this.tools.set(tool.name, tool)` (a warning is
logged when the name is already present; the entry is overwritten). -/
def registerTool (reg : Registry) (tool : RegisteredTool) : Registry :=
  mapSet reg tool.name tool

/-- `getTool(name)`: `this.tools.get(name)`. -/
def getTool (reg : Registry) (name : String) : Option RegisteredTool :=
  mapGet reg name

/-- `hasTool(name)`: `this.tools.has(name)`. -/
def hasTool (reg : Registry) (name : String) : Bool :=
  mapHas reg name

/-- `getToolCount()`: `this.tools.size`. -/
def getToolCount (reg : Registry) : Nat :=
  reg.length

/-- `unregisterTool(name)`: `this.tools.delete(name)` (returns the updated
registry together with the `delete` result). -/
def unregisterTool (reg : Registry) (name : String) : Registry × Bool :=
  (mapDelete reg name, mapHas reg name)

end ToolRegistry

/-! ## Command router (`src/server/CommandRouter.ts`). -/

namespace CommandRouter

/-- A single text content block `{type: "text", text: s}`. -/
def textBlock (s : String) : JSVal :=
  .vObj [("type", .vStr "text"), ("text", .vStr s)]

/-- The error envelope built in `executeCommand`'s `catch` block. -/
def errorEnvelope (toolName msg : String) : JSVal :=
  .vObj [("content", .vArr [textBlock s!"Error executing {toolName}: {msg}"]),
         ("isError", .vBool true)]

/-- `CommandRouter.formatResult(result)`: normalizes whatever a handler
resolved to into the `MCPToolResult` envelope. Mirrors the four guarded
branches and the `String(result)` fallback of the source. -/
def formatResult (result : JSVal) : JSVal :=
  -- If result is already in the correct format, return it
  if result.truthy = true ∧ (result.getField "content").isArrayV = true then
    result
  -- If result is a string, wrap it in text content
  else if result.typeOf = "string" then
    .vObj [("content", .vArr [textBlock (match result with
      | .vStr s => s
      | _ => "")])]
  -- If result has a message property, use that
  else if result.truthy = true ∧ (result.getField "message").typeOf = "string" then
    .vObj [("content", .vArr [textBlock (match result.getField "message" with
      | .vStr s => s
      | _ => "")])]
  -- If result is an object, stringify it
  else if result.typeOf = "object" ∧ result.isNullV = false then
    .vObj [("content", .vArr [textBlock (jsonStringify result)])]
  -- Fallback: convert to string
  else
    .vObj [("content", .vArr [textBlock (jsToString result)])]

/-- `CommandRouter.executeCommand(toolName, args)`: looks the tool up,
invokes its handler and normalizes the result; any thrown error (including
the synthetic `Tool not found` one) is converted into the error envelope,
so the promise always resolves. -/
def executeCommand (reg : ToolRegistry.Registry) (toolName : String)
    (args : JSVal) : JSVal :=
  match ToolRegistry.getTool reg toolName with
  | none => errorEnvelope toolName s!"Tool not found: {toolName}"
  | some tool =>
    match tool.handler args with
    | .error msg => errorEnvelope toolName msg
    | .ok result => formatResult result

end CommandRouter

/-! ## Protocol front door (`MCPServer`, the `CallTool` request handler and
`validateToolArguments` / `validatePropertyType`). -/

namespace MCPServer

/-- The two MCP error codes the server uses. -/
inductive ErrorCode : Type where
  | invalidRequest : ErrorCode
  | internalError : ErrorCode
deriving DecidableEq

/-- `McpError(code, message)`. -/
structure McpError where
  code : ErrorCode
  message : String
deriving DecidableEq

/-- Raw call arguments: a JavaScript object, as key/value entries. -/
abbrev Args : Type := List (String × JSVal)

/-- `validatePropertyType(key, value, schema)`: the four sequential checks
(string / number / boolean type mismatch, then enum membership), each
throwing an `InvalidRequest` `McpError`. -/
def validatePropertyType (key : String) (value : JSVal) (schema : PropSchema) :
    Except McpError Unit :=
  if schema.type = some "string" ∧ value.typeOf ≠ "string" then
    .error ⟨.invalidRequest, s!"Argument {key} must be a string"⟩
  else if schema.type = some "number" ∧ value.typeOf ≠ "number" then
    .error ⟨.invalidRequest, s!"Argument {key} must be a number"⟩
  else if schema.type = some "boolean" ∧ value.typeOf ≠ "boolean" then
    .error ⟨.invalidRequest, s!"Argument {key} must be a boolean"⟩
  else
    match schema.enum with
    | some enumVals =>
      if !(enumVals.contains value) then
        .error ⟨.invalidRequest,
          s!"Argument {key} must be one of: " ++
            String.intercalate ", " (jsToStringList enumVals)⟩
      else .ok ()
    | none => .ok ()

/-- The `required` loop of `validateToolArguments`. -/
def checkRequired (required : List String) (args : Args) : Except McpError Unit :=
  match required with
  | [] => .ok ()
  | r :: rest =>
    if (args.find? (fun p => p.1 = r)).isSome then checkRequired rest args
    else .error ⟨.invalidRequest, s!"Missing required argument: {r}"⟩

/-- The `Object.entries(args)` loop of `validateToolArguments`: each
supplied argument that has a declared property schema is type-checked. -/
def checkEntries (properties : List (String × PropSchema)) (entries : Args) :
    Except McpError Unit :=
  match entries with
  | [] => .ok ()
  | (k, v) :: rest =>
    match mapGet properties k with
    | some ps =>
      match validatePropertyType k v ps with
      | .error e => .error e
      | .ok _ => checkEntries properties rest
    | none => checkEntries properties rest

/-- `MCPServer.validateToolArguments(tool, args)`. -/
def validateToolArguments (tool : RegisteredTool) (args : Args) :
    Except McpError Unit :=
  match (match tool.inputSchema.required with
         | some required => checkRequired required args
         | none => .ok ()) with
  | .error e => .error e
  | .ok _ => checkEntries tool.inputSchema.properties args

/-- Turn the raw argument entries into the object value handed to handlers. -/
def argsToVal (args : Args) : JSVal := .vObj args

/-- The front door's response shape `{content, isError}`. -/
structure CallToolResponse where
  content : JSVal
  isError : Bool

/-- The `CallTool` request handler: unknown tool → `InvalidRequest`;
argument validation → `InvalidRequest` before the router runs; otherwise
the router's envelope is forwarded. The router itself never throws, and
`McpError`s thrown before it are re-thrown unchanged by the `catch`
(anything else would become `InternalError`); `router` abstracts
`this.commandRouter.executeCommand` so that theorems can quantify over it. -/
def callToolHandler (reg : ToolRegistry.Registry)
    (router : String → JSVal → JSVal) (name : String) (args : Option Args) :
    Except McpError CallToolResponse :=
  match ToolRegistry.getTool reg name with
  | none => .error ⟨.invalidRequest, s!"Unknown tool: {name}"⟩
  | some tool =>
    match validateToolArguments tool (args.getD []) with
    | .error e => .error e
    | .ok _ =>
      let result := router name (argsToVal (args.getD []))
      .ok { content := result.getField "content",
            isError := (result.getField "isError").truthy }

end MCPServer

/-! ## Process executor (`src/utils/idb.ts`, class `IDBWrapper`). -/

namespace IDBWrapper

/-- `IDBCommandResult`. -/
structure IDBCommandResult where
  success : Bool
  stdout : String
  stderr : String
  exitCode : Int
deriving DecidableEq

/-- Outcome of one `execAsync` invocation: either it resolves with the two
streams, or it rejects with an `Error` carrying optional `stdout` /
`stderr` / `code` properties and a `message` (on an `exec` timeout the
process is killed and this same rejection path is taken, with `code`
unset). -/
inductive ExecOutcome : Type where
  | ok (stdout stderr : String) : ExecOutcome
  | err (stdout stderr : Option String) (message : String)
      (code : Option Int) : ExecOutcome

/-- `IDBWrapper.executeCommand(args, timeout)`: wraps `execAsync` and never
throws — a rejection is converted into a failed `IDBCommandResult` with
`exitCode = error.code || 1` and `stderr = error.stderr || error.message || ""`
(the argument-escaping of the command string does not affect the result
shape and is not modelled). -/
def executeCommand (outcome : ExecOutcome) : IDBCommandResult :=
  match outcome with
  | .ok stdout stderr =>
    { success := true, stdout := stdout.trim, stderr := stderr.trim,
      exitCode := 0 }
  | .err stdout stderr message code =>
    { success := false,
      stdout := jsOrStr stdout "",
      stderr := jsOrStr stderr (jsOrStr (some message) ""),
      exitCode := match code with
        | some c => if c = 0 then 1 else c
        | none => 1 }

/-- `IDBWrapper.executeCommandWithRetry`, instrumented: `attempts k` is the
`execAsync` outcome of the `k`-th underlying invocation (0-based). The
loop runs `attempt = 1 .. retryAttempts + 1`, returns the first successful
result immediately, sleeps `retryDelay` between failing attempts, and
returns the last (failing) result after exhausting all attempts. Returns
`(result, invocations, sleeps)` where the extra components count the calls
to `this.executeCommand` and `this.delay`. -/
def retryLoopAux (attempts : Nat → ExecOutcome) (retryAttempts : Nat) :
    Nat → Nat → IDBCommandResult × Nat × Nat
  | 0, attempt =>
    -- only reached at `attempt = retryAttempts + 1`, where the loop makes
    -- its final invocation and returns it whatever its outcome
    (executeCommand (attempts (attempt - 1)), attempt, attempt - 1)
  | fuel + 1, attempt =>
    let lastResult := executeCommand (attempts (attempt - 1))
    if lastResult.success then (lastResult, attempt, attempt - 1)
    else if attempt ≤ retryAttempts then
      retryLoopAux attempts retryAttempts fuel (attempt + 1)
    else (lastResult, attempt, attempt - 1)

def executeCommandWithRetry (attempts : Nat → ExecOutcome)
    (retryAttempts : Nat) : IDBCommandResult × Nat × Nat :=
  retryLoopAux attempts retryAttempts retryAttempts 1

/-- Outcome of one `spawn("idb", args)` run, as observed by the handlers
installed in `executeCommandWithSpawn`: either the `exit` event fires
before the timeout (with an exit code, or `null` after a signal kill), or
the timeout fires first, or the `error` event fires. `stdout` / `stderr`
are the streams collected up to that point. -/
inductive SpawnOutcome : Type where
  | exited (stdout stderr : String) (code : Option Int) : SpawnOutcome
  | timedOut (stdout stderr : String) : SpawnOutcome
  | spawnErr (stdout stderr : String) (message : String) : SpawnOutcome

/-- `IDBWrapper.executeCommandWithSpawn(args, timeout)`: resolves (never
rejects). On `exit`, `success = (code === 0)` and `exitCode = code || 0`;
on timeout the child is killed and the promise resolves with a synthetic
`-1` exit code and `stderr` annotated with `"\nCommand timed out"`; on a
spawn error it resolves with `-1` and the error message appended. -/
def executeCommandWithSpawn (outcome : SpawnOutcome) : IDBCommandResult :=
  match outcome with
  | .exited stdout stderr code =>
    { success := code = some 0,
      stdout := stdout.trim, stderr := stderr.trim,
      exitCode := code.getD 0 }
  | .timedOut stdout stderr =>
    { success := false, stdout := stdout,
      stderr := stderr ++ "\nCommand timed out", exitCode := -1 }
  | .spawnErr stdout stderr message =>
    { success := false, stdout := stdout,
      stderr := stderr ++ "\n" ++ message, exitCode := -1 }

/-- `IDBWrapper.connectToTarget(udid)`: `executeCommandWithRetry(["connect", udid])`,
throwing when the final result is still unsuccessful. -/
def connectToTarget (attempts : Nat → ExecOutcome) (retryAttempts : Nat)
    (udid : String) : Except String Unit :=
  let result := (executeCommandWithRetry attempts retryAttempts).1
  if result.success then .ok ()
  else .error s!"Failed to connect to target {udid}: {result.stderr}"

/-- `IDBWrapper.disconnectFromTarget(udid)`: one `executeCommand` whose
failure is only logged as a warning — the method never throws. The second
component is the list of warning log lines emitted. -/
def disconnectFromTarget (outcome : ExecOutcome) (udid : String) :
    Unit × List String :=
  let result := executeCommand outcome
  if result.success then ((), [])
  else ((), [s!"Failed to disconnect from target {udid}: {result.stderr}"])

end IDBWrapper

/-! ## Simulator lifecycle controller
(`src/managers/SimulatorManager.ts` and `src/types/simulator.ts`). -/

/-- `SimulatorInfo` (`src/types/simulator.ts`); `state` is kept as a string
because the source compares it against string literals. -/
structure SimulatorInfo where
  udid : String
  name : String
  state : String
  runtime : String
  deviceTypeIdentifier : String
  platform : String
  version : String
deriving DecidableEq

/-- `SimulatorSession` (`src/types/simulator.ts`); `createdAt` is a
timestamp in milliseconds. -/
structure SimulatorSession where
  id : String
  udid : String
  name : String
  state : String
  createdAt : Nat
  projectPath : Option String
  bundleId : Option String
deriving DecidableEq

/-- `RNSimulatorConfig` (the argument of `createSimulatorSession`). -/
structure RNSimulatorConfig where
  deviceType : String
  iosVersion : Option String
  projectPath : Option String
  scheme : Option String
  bundleId : Option String

/-- The `config.getSimulatorConfig()` record (`src/utils/config.ts`,
`simulator` section). -/
structure SimConfig where
  defaultDevice : String
  defaultIOSVersion : String
  timeout : Nat
  autoBootOnCreate : Bool

namespace SimulatorManager

/-- `private activeSessions = new Map<string, SimulatorSession>()`. -/
def SessionStore : Type := List (String × SimulatorSession)

/-- The device-matching predicate of `createSimulatorSession`:
`sim.name.includes(config.deviceType) && (config.iosVersion ? sim.version.includes(config.iosVersion) : true)`. -/
def matchesConfig (cfg : RNSimulatorConfig) (sim : SimulatorInfo) : Bool :=
  strIncludes sim.name cfg.deviceType &&
    (match cfg.iosVersion with
     | some v => strIncludes sim.version v
     | none => true)

/-- `SimulatorManager.createSimulatorSession(config)`.
`listOutcome` is the result of `listAvailableSimulators()` (which may
throw), `freshId` the `uuidv4()` value and `now` the `new Date()`
timestamp. `simulatorConfig` is the class's config field; note that the
method stores the session with state `"inactive"` and returns the id — no
branch of it consults `simulatorConfig.autoBootOnCreate` or boots the
device. On success returns the session id and the updated store. -/
def createSimulatorSession (simulatorConfig : SimConfig)
    (listOutcome : Except String (List SimulatorInfo))
    (freshId : String) (now : Nat) (cfg : RNSimulatorConfig)
    (store : SessionStore) : Except String (String × SessionStore) :=
  match listOutcome with
  | .error e => .error e
  | .ok availableSimulators =>
    match availableSimulators.find? (matchesConfig cfg) with
    | none => .error s!"No simulator found matching device type: {cfg.deviceType}"
    | some targetSimulator =>
      let session : SimulatorSession :=
        { id := freshId, udid := targetSimulator.udid,
          name := targetSimulator.name, state := "inactive",
          createdAt := now, projectPath := cfg.projectPath,
          bundleId := none }
      .ok (freshId, mapSet store freshId session)

/-- `SimulatorManager.getSimulatorInfo(udid)`: enumerate all simulators
and return the one with the given UDID, or `null`. -/
def getSimulatorInfo (listOutcome : Except String (List SimulatorInfo))
    (udid : String) : Except String (Option SimulatorInfo) :=
  match listOutcome with
  | .error e => .error e
  | .ok simulators => .ok (simulators.find? (fun sim => sim.udid = udid))

/-- The timeout error thrown by `waitForSimulatorState`. -/
def timeoutMsg (udid expectedState : String) : String :=
  s!"Timeout waiting for simulator {udid} to reach state: {expectedState}"

/-- The body of `waitForSimulatorState`'s `while` loop. `poll k` is the
result of the `k`-th `getSimulatorInfo` call (which may itself throw);
after each non-matching poll the loop sleeps 1000 ms, so the `k`-th poll
happens at elapsed time `1000 * k` and runs only while `1000 * k <
timeoutMs`. The `fuel` argument only bounds the recursion: starting from
`fuel = timeoutMs` it never runs out before the time check fails. -/
def waitLoop (poll : Nat → Except String (Option SimulatorInfo))
    (udid expectedState : String) (timeoutMs : Nat) :
    Nat → Nat → Except String Unit
  | 0, _ => .error (timeoutMsg udid expectedState)
  | fuel + 1, k =>
    if 1000 * k < timeoutMs then
      match poll k with
      | .error e => .error e
      | .ok info =>
        if (info.map (·.state)) = some expectedState then .ok ()
        else waitLoop poll udid expectedState timeoutMs fuel (k + 1)
    else .error (timeoutMsg udid expectedState)

/-- `SimulatorManager.waitForSimulatorState(udid, expectedState, timeoutMs)`:
polls `getSimulatorInfo` every 1000 ms until the device reports
`expectedState`, throwing the timeout error once the elapsed time reaches
`timeoutMs`. -/
def waitForSimulatorState (poll : Nat → Except String (Option SimulatorInfo))
    (udid expectedState : String) (timeoutMs : Nat) : Except String Unit :=
  waitLoop poll udid expectedState timeoutMs timeoutMs 0

/-- The external effects consumed by `bootSimulatorByUDID`:
the initial `getSimulatorInfo` call, the `xcrun simctl boot` invocation
(identical in the headless and GUI branches up to environment variables),
the polling sequence of the convergence wait, and the outcomes of the
`idb connect` attempts made by `connectToTarget`. -/
structure BootEnv where
  initialInfo : Except String (Option SimulatorInfo)
  bootExec : Except String Unit
  poll : Nat → Except String (Option SimulatorInfo)
  connectAttempts : Nat → IDBWrapper.ExecOutcome

/-- `SimulatorManager.bootSimulatorByUDID(udid)`. The `try/catch` in the
source logs and re-throws, so it does not change the result. Note that the
final `idb.connectToTarget(udid)` is awaited directly — it is not wrapped,
so a connect failure rejects the whole boot. `retryAttempts` and
`timeoutMs` are the `idb` retry count and `simulatorConfig.timeout`. -/
def bootSimulatorByUDID (env : BootEnv) (retryAttempts timeoutMs : Nat)
    (udid : String) : Except String Unit :=
  match env.initialInfo with
  | .error e => .error e
  | .ok none => .error s!"Simulator not found: {udid}"
  | .ok (some info) =>
    if info.state = "Booted" then .ok ()
    else
      match env.bootExec with
      | .error e => .error e
      | .ok _ =>
        match waitForSimulatorState env.poll udid "Booted" timeoutMs with
        | .error e => .error e
        | .ok _ => IDBWrapper.connectToTarget env.connectAttempts retryAttempts udid

/-- `SimulatorManager.ensureIDBConnection(udid)`: tries to connect and
swallows any failure — the `catch` only logs a warning and does not
re-throw. Returns the (always successful) result together with the
warning log lines emitted. -/
def ensureIDBConnection (connectAttempts : Nat → IDBWrapper.ExecOutcome)
    (retryAttempts : Nat) (udid : String) : Except String Unit × List String :=
  match IDBWrapper.connectToTarget connectAttempts retryAttempts udid with
  | .ok _ => (.ok (), [])
  | .error _ => (.ok (), [s!"Could not ensure IDB connection for {udid}"])

/-- The external effects consumed by `shutdownSimulatorByUDID`: the
`idb disconnect` outcome, the `xcrun simctl shutdown` invocation, and the
polling sequence of the `Shutdown` convergence wait. -/
structure ShutdownEnv where
  disconnectExec : IDBWrapper.ExecOutcome
  shutdownExec : Except String Unit
  poll : Nat → Except String (Option SimulatorInfo)

/-- `SimulatorManager.shutdownSimulatorByUDID(udid)`: disconnect first
(never throws), issue the shutdown command, then wait for `Shutdown`. -/
def shutdownSimulatorByUDID (env : ShutdownEnv) (timeoutMs : Nat)
    (udid : String) : Except String Unit :=
  let _ := IDBWrapper.disconnectFromTarget env.disconnectExec udid
  match env.shutdownExec with
  | .error e => .error e
  | .ok _ => waitForSimulatorState env.poll udid "Shutdown" timeoutMs

/-- The external effects consumed by `terminateSimulatorSession`: the
`getSimulatorInfo` lookup, the shutdown sub-operation's effects, and the
final `idb disconnect` outcome. -/
structure TerminateEnv where
  listOutcome : Except String (List SimulatorInfo)
  shutdownEnv : ShutdownEnv
  finalDisconnectExec : IDBWrapper.ExecOutcome

/-- `SimulatorManager.terminateSimulatorSession(sessionId)`: unknown
session → throws before touching anything; then the device is shut down if
currently `Booted`, the companion is disconnected (never throws), and only
then is the session marked terminated and deleted from the store. Any
error before that point is re-thrown by the `catch` with the store (and
the stored session's state) unchanged. Returns the result together with
the updated store. -/
def terminateSimulatorSession (env : TerminateEnv) (timeoutMs : Nat)
    (store : SessionStore) (sessionId : String) :
    Except String Unit × SessionStore :=
  match mapGet store sessionId with
  | none => (.error s!"Session not found: {sessionId}", store)
  | some session =>
    let attempt : Except String Unit :=
      match getSimulatorInfo env.listOutcome session.udid with
      | .error e => .error e
      | .ok simulatorInfo =>
        match (match simulatorInfo with
               | some info =>
                 if info.state = "Booted" then
                   shutdownSimulatorByUDID env.shutdownEnv timeoutMs session.udid
                 else .ok ()
               | none => .ok ()) with
        | .error e => .error e
        | .ok _ =>
          let _ := IDBWrapper.disconnectFromTarget env.finalDisconnectExec session.udid
          .ok ()
    match attempt with
    | .ok _ => (.ok (), mapDelete store sessionId)
    | .error e => (.error e, store)

end SimulatorManager

/-! ## Fixtures used by concrete scenarios. -/

/-- A trivial schema (`type: "object"` with no properties). -/
def emptySchema : InputSchema := { properties := [], required := none }

/-- A minimal registered tool with the given name. -/
def mkTool (n : String) : RegisteredTool :=
  { name := n, description := "", inputSchema := emptySchema,
    category := "test", handler := fun _ => .ok .vNull }

/-- The pre-shaped healthcheck envelope `{content:[{type:"text",text:"OK"}]}`. -/
def okEnvelope : JSVal :=
  .vObj [("content", .vArr [CommandRouter.textBlock "OK"])]

/-- A registry holding one healthcheck tool whose handler resolves the
pre-shaped envelope. -/
def healthcheckReg : ToolRegistry.Registry :=
  ToolRegistry.registerTool ToolRegistry.empty
    { name := "mcp_server_healthcheck", description := "healthcheck",
      inputSchema := emptySchema, category := "server",
      handler := fun _ => .ok okEnvelope }

/-! ## C1 — the router resolves every call, converting lookup and handler
failures into the `Error executing <name>: <message>` envelope. -/

/-- C1: `CommandRouter.executeCommand` always resolves. When the tool name
is not registered, or the looked-up handler throws, the result is the
error envelope with `isError = true` and exactly one text block
`"Error executing <name>: <message>"`; in particular
`executeCommand("missing_tool", {})` against an empty registry yields
`{content:[{type:"text", text:"Error executing missing_tool: Tool not found: missing_tool"}], isError:true}`. -/
theorem C1_executeCommand_error_envelope :
    (∀ (reg : ToolRegistry.Registry) (toolName : String) (args : JSVal),
        ToolRegistry.getTool reg toolName = none →
        CommandRouter.executeCommand reg toolName args =
          CommandRouter.errorEnvelope toolName s!"Tool not found: {toolName}") ∧
    (∀ (reg : ToolRegistry.Registry) (toolName : String) (args : JSVal)
        (tool : RegisteredTool) (msg : String),
        ToolRegistry.getTool reg toolName = some tool →
        tool.handler args = .error msg →
        CommandRouter.executeCommand reg toolName args =
          CommandRouter.errorEnvelope toolName msg) ∧
    (∀ (toolName msg : String),
        CommandRouter.errorEnvelope toolName msg =
          .vObj [("content", .vArr [.vObj [("type", .vStr "text"),
                  ("text", .vStr s!"Error executing {toolName}: {msg}")]]),
                 ("isError", .vBool true)]) ∧
    CommandRouter.executeCommand ToolRegistry.empty "missing_tool" (.vObj []) =
      .vObj [("content", .vArr [.vObj [("type", .vStr "text"),
              ("text", .vStr "Error executing missing_tool: Tool not found: missing_tool")]]),
             ("isError", .vBool true)] := by
  refine ⟨?_, ?_, ?_, ?_⟩
  · intro reg toolName args h
    simp [CommandRouter.executeCommand, h]
  · intro reg toolName args tool msg hget hthrow
    simp [CommandRouter.executeCommand, hget, hthrow]
  · intro toolName msg
    rfl
  · rfl

/-- Witness for C1: the first conjunct applied to the empty registry. -/
theorem C1_witness :
    CommandRouter.executeCommand ToolRegistry.empty "tap" .vNull =
      CommandRouter.errorEnvelope "tap" "Tool not found: tap" :=
  C1_executeCommand_error_envelope.1 ToolRegistry.empty "tap" .vNull rfl

/-! ## C8 — registry registration, lookup, overwrite semantics. -/

/-- C8: after `registerTool(spec)`, `getTool(spec.name)` returns `spec`
(whose `name` field is that name); re-registering an existing name
overwrites without changing `getToolCount`; and registering tools named
`"a"`, `"b"`, `"a"` yields count 2 with `hasTool "a"` and not
`hasTool "c"`. -/
theorem C8_registry_register_overwrite :
    (∀ (reg : ToolRegistry.Registry) (spec : RegisteredTool) (n : String),
        spec.name = n →
        ToolRegistry.getTool (ToolRegistry.registerTool reg spec) n = some spec ∧
        ∃ t, ToolRegistry.getTool (ToolRegistry.registerTool reg spec) n = some t ∧
          t.name = n) ∧
    (∀ (reg : ToolRegistry.Registry) (spec : RegisteredTool),
        ToolRegistry.hasTool reg spec.name = true →
        ToolRegistry.getToolCount (ToolRegistry.registerTool reg spec) =
          ToolRegistry.getToolCount reg) ∧
    (let r3 := ToolRegistry.registerTool
        (ToolRegistry.registerTool
          (ToolRegistry.registerTool ToolRegistry.empty (mkTool "a"))
          (mkTool "b"))
        { mkTool "a" with description := "duplicate" }
     ToolRegistry.getToolCount r3 = 2 ∧
       ToolRegistry.hasTool r3 "a" = true ∧
       ToolRegistry.hasTool r3 "c" = false) := by
  refine ⟨?_, ?_, ?_, ?_, ?_⟩
  · intro reg spec n hname
    subst hname
    have h := mapGet_mapSet_self reg spec.name spec
    exact ⟨h, spec, h, rfl⟩
  · intro reg spec h
    exact mapSet_length_of_has reg spec.name spec h
  · rfl
  · rfl
  · rfl

/-- Witness for C8: applied to a singleton registry. -/
theorem C8_witness :
    ToolRegistry.getTool
        (ToolRegistry.registerTool
          (ToolRegistry.registerTool ToolRegistry.empty (mkTool "boot"))
          (mkTool "boot"))
        "boot" = some (mkTool "boot") ∧
    ToolRegistry.getToolCount
        (ToolRegistry.registerTool
          (ToolRegistry.registerTool ToolRegistry.empty (mkTool "boot"))
          (mkTool "boot")) = 1 :=
  ⟨(C8_registry_register_overwrite.1
      (ToolRegistry.registerTool ToolRegistry.empty (mkTool "boot"))
      (mkTool "boot") "boot" rfl).1,
   C8_registry_register_overwrite.2.1
      (ToolRegistry.registerTool ToolRegistry.empty (mkTool "boot"))
      (mkTool "boot") rfl⟩


/-! ## C2 — the router's result-normalization priority order. -/

theorem getField_content_single (blocks : JSVal) :
    (JSVal.vObj [("content", blocks)]).getField "content" = blocks := by
  simp [JSVal.getField, List.find?]

theorem formatResult_passthrough (v : JSVal) (htr : v.truthy = true)
    (harr : (v.getField "content").isArrayV = true) :
    CommandRouter.formatResult v = v := by
  unfold CommandRouter.formatResult
  rw [if_pos ⟨htr, harr⟩]

theorem formatResult_string (s : String) :
    CommandRouter.formatResult (.vStr s) =
      .vObj [("content", .vArr [CommandRouter.textBlock s])] := by
  unfold CommandRouter.formatResult
  rw [if_neg (fun h => by simp [JSVal.getField, JSVal.isArrayV] at h),
    if_pos (show (JSVal.vStr s).typeOf = "string" from rfl)]

theorem formatResult_message (v : JSVal) (m : String) (htr : v.truthy = true)
    (harr : (v.getField "content").isArrayV = false)
    (hstr : v.typeOf ≠ "string") (hmsg : v.getField "message" = .vStr m) :
    CommandRouter.formatResult v =
      .vObj [("content", .vArr [CommandRouter.textBlock m])] := by
  unfold CommandRouter.formatResult
  rw [if_neg (fun h => by rw [harr] at h; exact absurd h.2 (by simp)),
    if_neg hstr, if_pos ⟨htr, by rw [hmsg]; rfl⟩, hmsg]

theorem formatResult_object (v : JSVal) (hobj : v.typeOf = "object")
    (hnull : v.isNullV = false) (harr : (v.getField "content").isArrayV = false)
    (hmsg : (v.getField "message").typeOf ≠ "string") :
    CommandRouter.formatResult v =
      .vObj [("content", .vArr [CommandRouter.textBlock (jsonStringify v)])] := by
  unfold CommandRouter.formatResult
  rw [if_neg (fun h => by rw [harr] at h; exact absurd h.2 (by simp)),
    if_neg (fun h => by rw [hobj] at h; exact absurd h (by simp)),
    if_neg (fun h => hmsg h.2), if_pos ⟨hobj, hnull⟩]

theorem formatResult_fallback (v : JSVal) (hstr : v.typeOf ≠ "string")
    (hrest : v.typeOf ≠ "object" ∨ v = .vNull) :
    CommandRouter.formatResult v =
      .vObj [("content", .vArr [CommandRouter.textBlock (jsToString v)])] := by
  unfold CommandRouter.formatResult
  cases v with
  | vStr s => exact absurd rfl hstr
  | vNull =>
    rw [if_neg (fun h => by exact absurd h.1 (by simp [JSVal.truthy])),
      if_neg (by simp [JSVal.typeOf]),
      if_neg (fun h => by exact absurd h.1 (by simp [JSVal.truthy])),
      if_neg (fun h => by exact absurd h.2 (by simp [JSVal.isNullV]))]
  | vUndefined =>
    rw [if_neg (fun h => by exact absurd h.1 (by simp [JSVal.truthy])),
      if_neg (by simp [JSVal.typeOf]),
      if_neg (fun h => by exact absurd h.1 (by simp [JSVal.truthy])),
      if_neg (fun h => by exact absurd h.1 (by simp [JSVal.typeOf]))]
  | vBool b =>
    rw [if_neg (fun h => by exact absurd h.2 (by simp [JSVal.getField, JSVal.isArrayV])),
      if_neg (by simp [JSVal.typeOf]),
      if_neg (fun h => by exact absurd h.2 (by simp [JSVal.getField, JSVal.typeOf])),
      if_neg (fun h => by exact absurd h.1 (by simp [JSVal.typeOf]))]
  | vNum n =>
    rw [if_neg (fun h => by exact absurd h.2 (by simp [JSVal.getField, JSVal.isArrayV])),
      if_neg (by simp [JSVal.typeOf]),
      if_neg (fun h => by exact absurd h.2 (by simp [JSVal.getField, JSVal.typeOf])),
      if_neg (fun h => by exact absurd h.1 (by simp [JSVal.typeOf]))]
  | vArr xs =>
    rcases hrest with h | h
    · exact absurd rfl h
    · exact absurd h (by simp)
  | vObj fields =>
    rcases hrest with h | h
    · exact absurd rfl h
    · exact absurd h (by simp)

theorem formatResult_single_block (v : JSVal)
    (hnot : ¬(v.truthy = true ∧ (v.getField "content").isArrayV = true)) :
    ∃ s : String, (CommandRouter.formatResult v).getField "content" =
      .vArr [CommandRouter.textBlock s] := by
  cases v with
  | vStr s =>
    exact ⟨s, by rw [formatResult_string]; exact getField_content_single _⟩
  | vNull =>
    exact ⟨"null", by
      rw [formatResult_fallback JSVal.vNull (by simp [JSVal.typeOf]) (Or.inr rfl)]
      exact getField_content_single _⟩
  | vUndefined =>
    exact ⟨"undefined", by
      rw [formatResult_fallback JSVal.vUndefined (by simp [JSVal.typeOf])
        (Or.inl (by simp [JSVal.typeOf]))]
      exact getField_content_single _⟩
  | vBool b =>
    exact ⟨jsToString (.vBool b), by
      rw [formatResult_fallback (JSVal.vBool b) (by simp [JSVal.typeOf])
        (Or.inl (by simp [JSVal.typeOf]))]
      exact getField_content_single _⟩
  | vNum n =>
    exact ⟨jsToString (.vNum n), by
      rw [formatResult_fallback (JSVal.vNum n) (by simp [JSVal.typeOf])
        (Or.inl (by simp [JSVal.typeOf]))]
      exact getField_content_single _⟩
  | vArr xs =>
    refine ⟨jsonStringify (.vArr xs), ?_⟩
    rw [formatResult_object (JSVal.vArr xs) rfl rfl rfl
      (by simp [JSVal.getField, JSVal.typeOf])]
    exact getField_content_single _
  | vObj fields =>
    have htr : (JSVal.vObj fields).truthy = true := rfl
    have harr : ((JSVal.vObj fields).getField "content").isArrayV = false := by
      cases h1 : ((JSVal.vObj fields).getField "content").isArrayV
      · rfl
      · exact absurd ⟨htr, h1⟩ hnot
    by_cases hmsg : ∃ m, (JSVal.vObj fields).getField "message" = .vStr m
    · obtain ⟨m, hm⟩ := hmsg
      refine ⟨m, ?_⟩
      rw [formatResult_message (JSVal.vObj fields) m htr harr
        (by simp [JSVal.typeOf]) hm]
      exact getField_content_single _
    · refine ⟨jsonStringify (.vObj fields), ?_⟩
      have hmt : ((JSVal.vObj fields).getField "message").typeOf ≠ "string" := by
        intro hcontra
        cases hmf : (JSVal.vObj fields).getField "message" with
        | vStr s => exact hmsg ⟨s, hmf⟩
        | vNull => rw [hmf] at hcontra; simp [JSVal.typeOf] at hcontra
        | vUndefined => rw [hmf] at hcontra; simp [JSVal.typeOf] at hcontra
        | vBool b => rw [hmf] at hcontra; simp [JSVal.typeOf] at hcontra
        | vNum n => rw [hmf] at hcontra; simp [JSVal.typeOf] at hcontra
        | vArr xs => rw [hmf] at hcontra; simp [JSVal.typeOf] at hcontra
        | vObj fs => rw [hmf] at hcontra; simp [JSVal.typeOf] at hcontra
      rw [formatResult_object (JSVal.vObj fields) rfl rfl harr hmt]
      exact getField_content_single _

/-- Counterexample for C2: a handler value `{content: []}` already has an
array-valued `content` field, so it is passed through unchanged — the
resulting `content` array is empty, refuting "in every case the resulting
content array is non-empty". -/
theorem C2_counterexample :
    CommandRouter.formatResult (.vObj [("content", .vArr [])]) =
      .vObj [("content", .vArr [])] ∧
    (CommandRouter.formatResult (.vObj [("content", .vArr [])])).getField
        "content" = .vArr [] := by
  have hpass : CommandRouter.formatResult (.vObj [("content", .vArr [])]) =
      .vObj [("content", .vArr [])] :=
    formatResult_passthrough (JSVal.vObj [("content", JSVal.vArr [])]) rfl
      (by rw [getField_content_single]; rfl)
  refine ⟨hpass, ?_⟩
  rw [hpass]
  exact getField_content_single _

/-- C2 (amended): `formatResult` applies exactly the claimed priority
order — (1) a truthy value with an array-valued `content` field passes
through unchanged (so `executeCommand` on the healthcheck handler returns
its envelope verbatim with `isError` falsy); (2) a string is wrapped as a
single text block; (3) a truthy value with a string `message` field (not
caught by the earlier cases) yields one text block holding the message;
(4) any other non-null object is serialized by `JSON.stringify(·, null, 2)`
into one formatted text block; (5) anything else is stringified — and in
cases (2)–(5) the resulting `content` array is exactly one text block
(hence non-empty), while in case (1) the content array is whatever the
handler supplied (and may be empty). -/
theorem C2_formatResult_priority :
    (∀ v : JSVal, v.truthy = true → (v.getField "content").isArrayV = true →
        CommandRouter.formatResult v = v) ∧
    (CommandRouter.executeCommand healthcheckReg "mcp_server_healthcheck"
        (.vObj []) = okEnvelope ∧
      (okEnvelope.getField "isError").truthy = false) ∧
    (∀ s : String, CommandRouter.formatResult (.vStr s) =
        .vObj [("content", .vArr [CommandRouter.textBlock s])]) ∧
    (∀ (v : JSVal) (m : String), v.truthy = true →
        (v.getField "content").isArrayV = false → v.typeOf ≠ "string" →
        v.getField "message" = .vStr m →
        CommandRouter.formatResult v =
          .vObj [("content", .vArr [CommandRouter.textBlock m])]) ∧
    (∀ v : JSVal, v.typeOf = "object" → v.isNullV = false →
        (v.getField "content").isArrayV = false →
        (v.getField "message").typeOf ≠ "string" →
        CommandRouter.formatResult v =
          .vObj [("content", .vArr [CommandRouter.textBlock (jsonStringify v)])]) ∧
    (∀ v : JSVal, v.typeOf ≠ "string" → (v.typeOf ≠ "object" ∨ v = .vNull) →
        CommandRouter.formatResult v =
          .vObj [("content", .vArr [CommandRouter.textBlock (jsToString v)])]) ∧
    (∀ v : JSVal, ¬(v.truthy = true ∧ (v.getField "content").isArrayV = true) →
        ∃ s : String, (CommandRouter.formatResult v).getField "content" =
          .vArr [CommandRouter.textBlock s]) := by
  refine ⟨formatResult_passthrough, ⟨?_, rfl⟩, formatResult_string,
    formatResult_message, formatResult_object, formatResult_fallback,
    formatResult_single_block⟩
  have hstep : CommandRouter.executeCommand healthcheckReg
      "mcp_server_healthcheck" (.vObj []) =
      CommandRouter.formatResult okEnvelope := rfl
  rw [hstep]
  exact formatResult_passthrough okEnvelope rfl
    (by rw [show okEnvelope.getField "content" =
        .vArr [CommandRouter.textBlock "OK"] from getField_content_single _]; rfl)

/-- Witness for C2: the message-field case applied to `{message: "done"}`. -/
theorem C2_witness :
    CommandRouter.formatResult (.vObj [("message", .vStr "done")]) =
      .vObj [("content", .vArr [CommandRouter.textBlock "done"])] :=
  C2_formatResult_priority.2.2.2.1 (.vObj [("message", .vStr "done")]) "done"
    rfl rfl (by simp [JSVal.typeOf]) rfl

/-! ## C6 — `CommandResult` invariants; C7 — retry loop behaviour. -/

/-- The rejection `executeCommand`'s `execAsync` produces when its
`timeout` option expires: the child is killed, the `Error` carries
`killed = true`, `code = null` (unset) and the generic
`"Command failed: <command>"` message, with whatever the streams had
captured (here nothing). -/
def execTimeoutOutcome : IDBWrapper.ExecOutcome :=
  .err (some "") (some "") "Command failed: idb list-targets" none

/-- Counterexample for C6: the exec-based `executeCommand` also times out
(via `execAsync`'s `timeout` option), and on that path its `catch` yields
`exitCode = error.code || 1 = 1` — positive, not the claimed synthetic
negative code — and `stderr = error.stderr || error.message`, which
carries no timeout marker. So the claim's "when the invocation times out"
clause is false for this executor. -/
theorem C6_counterexample :
    (IDBWrapper.executeCommand execTimeoutOutcome).success = false ∧
    (IDBWrapper.executeCommand execTimeoutOutcome).exitCode = 1 ∧
    ¬(IDBWrapper.executeCommand execTimeoutOutcome).exitCode < 0 ∧
    (IDBWrapper.executeCommand execTimeoutOutcome).stderr =
      "Command failed: idb list-targets" ∧
    strIncludes (IDBWrapper.executeCommand execTimeoutOutcome).stderr
      "Command timed out" = false := by
  refine ⟨rfl, rfl, by decide, rfl, by decide⟩

/-- C6 (amended): every `CommandResult` satisfies
`success == (exitCode == 0)` under normal process termination — for the
exec-based `executeCommand` on every outcome (a rejection maps to the
nonzero `error.code || 1`), and for the spawn-based variant on the `exit`
event with a numeric code. The timeout clause holds for the spawn-based
executor only: its timeout path yields `success = false`, the synthetic
negative exit code `-1`, and `stderr` annotated with the
`"Command timed out"` marker; the exec-based `executeCommand` reports a
timeout like any other rejection — `success = false` with the positive
`exitCode = error.code || 1` (`= 1` when the timeout kill leaves `code`
unset) and `stderr = error.stderr || error.message`, without a timeout
marker. -/
theorem C6_commandResult_invariant :
    (∀ o : IDBWrapper.ExecOutcome,
        ((IDBWrapper.executeCommand o).success = true ↔
          (IDBWrapper.executeCommand o).exitCode = 0)) ∧
    (∀ (so se : String) (c : Int),
        ((IDBWrapper.executeCommandWithSpawn (.exited so se (some c))).success = true ↔
          (IDBWrapper.executeCommandWithSpawn (.exited so se (some c))).exitCode = 0) ∧
        (IDBWrapper.executeCommandWithSpawn (.exited so se (some c))).exitCode = c) ∧
    (∀ so se : String,
        (IDBWrapper.executeCommandWithSpawn (.timedOut so se)).success = false ∧
        (IDBWrapper.executeCommandWithSpawn (.timedOut so se)).exitCode = -1 ∧
        (IDBWrapper.executeCommandWithSpawn (.timedOut so se)).exitCode < 0 ∧
        (IDBWrapper.executeCommandWithSpawn (.timedOut so se)).stderr =
          se ++ "\nCommand timed out") ∧
    (∀ (so se : Option String) (msg : String),
        (IDBWrapper.executeCommand (.err so se msg none)).success = false ∧
        (IDBWrapper.executeCommand (.err so se msg none)).exitCode = 1 ∧
        ¬(IDBWrapper.executeCommand (.err so se msg none)).exitCode < 0 ∧
        (IDBWrapper.executeCommand (.err so se msg none)).stderr =
          jsOrStr se (jsOrStr (some msg) "")) := by
  refine ⟨?_, ?_, ?_, ?_⟩
  · intro o
    cases o with
    | ok stdout stderr => simp [IDBWrapper.executeCommand]
    | err stdout stderr message code =>
      cases code with
      | none => simp [IDBWrapper.executeCommand]
      | some c =>
        by_cases hc : c = 0 <;> simp [IDBWrapper.executeCommand, hc]
  · intro so se c
    by_cases hc : c = 0 <;>
      simp [IDBWrapper.executeCommandWithSpawn, hc, Option.getD]
  · intro so se
    refine ⟨rfl, rfl, by norm_num [IDBWrapper.executeCommandWithSpawn], rfl⟩
  · intro so se msg
    refine ⟨rfl, rfl, by norm_num [IDBWrapper.executeCommand], rfl⟩

theorem retryLoopAux_invocations (attempts : Nat → IDBWrapper.ExecOutcome)
    (R : Nat) : ∀ (fuel a : Nat), a + fuel = R + 1 →
    (IDBWrapper.retryLoopAux attempts R fuel a).2.1 ≤ R + 1 := by
  intro fuel
  induction fuel with
  | zero =>
    intro a heq
    simp [IDBWrapper.retryLoopAux]
    omega
  | succ fuel ih =>
    intro a heq
    unfold IDBWrapper.retryLoopAux
    dsimp only
    split
    · simp; omega
    · split
      · exact ih (a + 1) (by omega)
      · simp; omega

theorem retryLoopAux_success_at (attempts : Nat → IDBWrapper.ExecOutcome)
    (R : Nat) : ∀ (fuel a k : Nat), 1 ≤ a → a + fuel = R + 1 →
    a - 1 ≤ k → k ≤ R →
    (∀ j, a - 1 ≤ j → j < k →
      (IDBWrapper.executeCommand (attempts j)).success = false) →
    (IDBWrapper.executeCommand (attempts k)).success = true →
    IDBWrapper.retryLoopAux attempts R fuel a =
      (IDBWrapper.executeCommand (attempts k), k + 1, k) := by
  intro fuel
  induction fuel with
  | zero =>
    intro a k ha heq hak hk hfail hsucc
    have hka : k = a - 1 := by omega
    subst hka
    unfold IDBWrapper.retryLoopAux
    simp
    omega
  | succ fuel ih =>
    intro a k ha heq hak hk hfail hsucc
    by_cases hcur : a - 1 = k
    · subst hcur
      unfold IDBWrapper.retryLoopAux
      dsimp only
      rw [if_pos (by simpa using hsucc)]
      simp
      omega
    · have hlt : a - 1 < k := by omega
      have hfa : (IDBWrapper.executeCommand (attempts (a - 1))).success = false :=
        hfail (a - 1) le_rfl hlt
      unfold IDBWrapper.retryLoopAux
      dsimp only
      rw [if_neg (by simp [hfa]), if_pos (show a ≤ R by omega)]
      exact ih (a + 1) k (by omega) (by omega) (by omega) hk
        (fun j hj hjk => hfail j (by omega) hjk) hsucc

theorem retryLoopAux_all_fail (attempts : Nat → IDBWrapper.ExecOutcome)
    (R : Nat) : ∀ (fuel a : Nat), 1 ≤ a → a + fuel = R + 1 →
    (∀ j, a - 1 ≤ j → j ≤ R →
      (IDBWrapper.executeCommand (attempts j)).success = false) →
    IDBWrapper.retryLoopAux attempts R fuel a =
      (IDBWrapper.executeCommand (attempts R), R + 1, R) := by
  intro fuel
  induction fuel with
  | zero =>
    intro a ha heq hfail
    have haR : a = R + 1 := by omega
    subst haR
    unfold IDBWrapper.retryLoopAux
    simp
  | succ fuel ih =>
    intro a ha heq hfail
    have hfa : (IDBWrapper.executeCommand (attempts (a - 1))).success = false :=
      hfail (a - 1) le_rfl (by omega)
    unfold IDBWrapper.retryLoopAux
    dsimp only
    rw [if_neg (by simp [hfa]), if_pos (show a ≤ R by omega)]
    exact ih (a + 1) (by omega) (by omega) (fun j hj hjR => hfail j (by omega) hjR)

/-- C7: the retry wrapper invokes the underlying command at most
`retryAttempts + 1` times; it stops at the first successful attempt and
returns that result (having slept once between each pair of consecutive
attempts, i.e. `invocations - 1` times); when every attempt fails it
returns the last failing result — without throwing — after exactly
`retryAttempts + 1` invocations, so `retryAttempts = 2` with every attempt
failing gives exactly 3 invocations. -/
theorem C7_executeCommandWithRetry :
    (∀ (attempts : Nat → IDBWrapper.ExecOutcome) (R : Nat),
        (IDBWrapper.executeCommandWithRetry attempts R).2.1 ≤ R + 1) ∧
    (∀ (attempts : Nat → IDBWrapper.ExecOutcome) (R k : Nat), k ≤ R →
        (∀ j, j < k → (IDBWrapper.executeCommand (attempts j)).success = false) →
        (IDBWrapper.executeCommand (attempts k)).success = true →
        IDBWrapper.executeCommandWithRetry attempts R =
          (IDBWrapper.executeCommand (attempts k), k + 1, k)) ∧
    (∀ (attempts : Nat → IDBWrapper.ExecOutcome) (R : Nat),
        (∀ j, j ≤ R → (IDBWrapper.executeCommand (attempts j)).success = false) →
        IDBWrapper.executeCommandWithRetry attempts R =
          (IDBWrapper.executeCommand (attempts R), R + 1, R)) ∧
    (∀ attempts : Nat → IDBWrapper.ExecOutcome,
        (∀ j, (IDBWrapper.executeCommand (attempts j)).success = false) →
        (IDBWrapper.executeCommandWithRetry attempts 2).2.1 = 3) := by
  refine ⟨?_, ?_, ?_, ?_⟩
  · intro attempts R
    exact retryLoopAux_invocations attempts R R 1 (by omega)
  · intro attempts R k hk hfail hsucc
    exact retryLoopAux_success_at attempts R R 1 k (by omega) (by omega)
      (by omega) hk (fun j _ hjk => hfail j hjk) hsucc
  · intro attempts R hfail
    exact retryLoopAux_all_fail attempts R R 1 (by omega) (by omega)
      (fun j _ hjR => hfail j hjR)
  · intro attempts hfail
    have h := retryLoopAux_all_fail attempts 2 2 1 (by omega) (by omega)
      (fun j _ _ => hfail j)
    unfold IDBWrapper.executeCommandWithRetry
    rw [h]

/-- A permanently failing `exec` outcome used by concrete scenarios. -/
def failingExec : IDBWrapper.ExecOutcome := .err none none "boom" none

/-- Witness for C7: three failing attempts with `retryAttempts = 2`. -/
theorem C7_witness :
    IDBWrapper.executeCommandWithRetry (fun _ => failingExec) 2 =
      (IDBWrapper.executeCommand failingExec, 3, 2) :=
  C7_executeCommandWithRetry.2.2.1 (fun _ => failingExec) 2 (fun _ _ => rfl)

/-! ## C4 — boot/shutdown convergence polling and its timeout error. -/

theorem waitLoop_timeout (poll : Nat → Except String (Option SimulatorInfo))
    (udid expectedState : String) (timeoutMs : Nat) :
    ∀ (fuel k : Nat), timeoutMs ≤ 1000 * k + fuel →
    (∀ j, k ≤ j → 1000 * j < timeoutMs →
      ∃ info, poll j = .ok info ∧ info.map (·.state) ≠ some expectedState) →
    SimulatorManager.waitLoop poll udid expectedState timeoutMs fuel k =
      .error (SimulatorManager.timeoutMsg udid expectedState) := by
  intro fuel
  induction fuel with
  | zero => intro k hb hfail; rfl
  | succ fuel ih =>
    intro k hb hfail
    unfold SimulatorManager.waitLoop
    by_cases hk : 1000 * k < timeoutMs
    · rw [if_pos hk]
      obtain ⟨info, hp, hns⟩ := hfail k le_rfl hk
      rw [hp]
      dsimp only
      rw [if_neg hns]
      exact ih (k + 1) (by omega) (fun j hj hjt => hfail j (by omega) hjt)
    · rw [if_neg hk]

theorem waitLoop_reaches (poll : Nat → Except String (Option SimulatorInfo))
    (udid expectedState : String) (timeoutMs : Nat) :
    ∀ (m fuel k : Nat), m + 1 ≤ fuel → 1000 * (k + m) < timeoutMs →
    (∀ j, k ≤ j → j < k + m →
      ∃ info, poll j = .ok info ∧ info.map (·.state) ≠ some expectedState) →
    (∃ info, poll (k + m) = .ok info ∧
      info.map (·.state) = some expectedState) →
    SimulatorManager.waitLoop poll udid expectedState timeoutMs fuel k =
      .ok () := by
  intro m
  induction m with
  | zero =>
    intro fuel k hfuel ht hbefore hat
    obtain ⟨fuel, rfl⟩ : ∃ f, fuel = f + 1 := ⟨fuel - 1, by omega⟩
    obtain ⟨info, hp, hs⟩ := hat
    unfold SimulatorManager.waitLoop
    rw [if_pos (by simpa using ht), show poll k = poll (k + 0) from rfl, hp]
    dsimp only
    rw [if_pos hs]
  | succ m ih =>
    intro fuel k hfuel ht hbefore hat
    obtain ⟨fuel, rfl⟩ : ∃ f, fuel = f + 1 := ⟨fuel - 1, by omega⟩
    obtain ⟨info, hp, hns⟩ := hbefore k le_rfl (by omega)
    unfold SimulatorManager.waitLoop
    rw [if_pos (show 1000 * k < timeoutMs by omega), hp]
    dsimp only
    rw [if_neg hns]
    refine ih fuel (k + 1) (by omega) (by omega)
      (fun j hj hjm => hbefore j (by omega) (by omega)) ?_
    obtain ⟨i2, hp2, hs2⟩ := hat
    exact ⟨i2, by rw [show k + 1 + m = k + (m + 1) from by omega]; exact hp2, hs2⟩

/-- C4: when no poll that happens strictly before the timeout (the `k`-th
poll runs at elapsed time `1000 * k`, i.e. at a fixed 1-second interval)
observes the expected state, `waitForSimulatorState` fails with the exact
message `"Timeout waiting for simulator <udid> to reach state:
<expectedState>"`; when some poll observes it first, the wait succeeds.
Both the boot wait (target `"Booted"`) and the shutdown wait (target
`"Shutdown"`) surface the same timeout error from
`bootSimulatorByUDID` / `shutdownSimulatorByUDID`. -/
theorem C4_waitForSimulatorState_timeout :
    (∀ (poll : Nat → Except String (Option SimulatorInfo))
        (udid expectedState : String) (timeoutMs : Nat),
        (∀ k, 1000 * k < timeoutMs →
          ∃ info, poll k = .ok info ∧ info.map (·.state) ≠ some expectedState) →
        SimulatorManager.waitForSimulatorState poll udid expectedState timeoutMs =
          .error s!"Timeout waiting for simulator {udid} to reach state: {expectedState}") ∧
    (∀ (poll : Nat → Except String (Option SimulatorInfo))
        (udid expectedState : String) (timeoutMs m : Nat),
        1000 * m < timeoutMs →
        (∀ j, j < m →
          ∃ info, poll j = .ok info ∧ info.map (·.state) ≠ some expectedState) →
        (∃ info, poll m = .ok info ∧ info.map (·.state) = some expectedState) →
        SimulatorManager.waitForSimulatorState poll udid expectedState timeoutMs =
          .ok ()) ∧
    (∀ (env : SimulatorManager.BootEnv) (retryAttempts timeoutMs : Nat)
        (udid : String) (info : SimulatorInfo),
        env.initialInfo = .ok (some info) → info.state ≠ "Booted" →
        env.bootExec = .ok () →
        (∀ k, 1000 * k < timeoutMs →
          ∃ i, env.poll k = .ok i ∧ i.map (·.state) ≠ some "Booted") →
        SimulatorManager.bootSimulatorByUDID env retryAttempts timeoutMs udid =
          .error (SimulatorManager.timeoutMsg udid "Booted")) ∧
    (∀ (env : SimulatorManager.ShutdownEnv) (timeoutMs : Nat) (udid : String),
        env.shutdownExec = .ok () →
        (∀ k, 1000 * k < timeoutMs →
          ∃ i, env.poll k = .ok i ∧ i.map (·.state) ≠ some "Shutdown") →
        SimulatorManager.shutdownSimulatorByUDID env timeoutMs udid =
          .error (SimulatorManager.timeoutMsg udid "Shutdown")) := by
  refine ⟨?_, ?_, ?_, ?_⟩
  · intro poll udid expectedState timeoutMs hfail
    exact waitLoop_timeout poll udid expectedState timeoutMs timeoutMs 0
      (by omega) (fun j _ hjt => hfail j hjt)
  · intro poll udid expectedState timeoutMs m ht hbefore hat
    exact waitLoop_reaches poll udid expectedState timeoutMs m timeoutMs 0
      (by omega) (by omega) (fun j _ hj => hbefore j (by omega))
      (by simpa using hat)
  · intro env retryAttempts timeoutMs udid info hinit hstate hboot hfail
    unfold SimulatorManager.bootSimulatorByUDID
    rw [hinit]
    dsimp only
    rw [if_neg hstate, hboot]
    dsimp only
    have hw : SimulatorManager.waitForSimulatorState env.poll udid "Booted"
        timeoutMs = .error (SimulatorManager.timeoutMsg udid "Booted") :=
      waitLoop_timeout env.poll udid "Booted" timeoutMs timeoutMs 0
        (by omega) (fun j _ hjt => hfail j hjt)
    rw [hw]
  · intro env timeoutMs udid hshut hfail
    unfold SimulatorManager.shutdownSimulatorByUDID
    rw [hshut]
    dsimp only
    exact waitLoop_timeout env.poll udid "Shutdown" timeoutMs timeoutMs 0
      (by omega) (fun j _ hjt => hfail j hjt)

/-- A shut-down demo device, as enumerated by `xcrun simctl`. -/
def demoDevice : SimulatorInfo :=
  { udid := "UD-1", name := "iPhone 15 Pro", state := "Shutdown",
    runtime := "iOS 17.0", deviceTypeIdentifier := "iPhone-15-Pro",
    platform := "iOS", version := "17.0" }

/-- The same device once booted. -/
def bootedDevice : SimulatorInfo := { demoDevice with state := "Booted" }

/-- Witness for C4: a device that keeps reporting `Shutdown` makes the
`Booted` wait fail with the exact timeout message after a 2500 ms budget. -/
theorem C4_witness :
    SimulatorManager.waitForSimulatorState (fun _ => .ok (some demoDevice))
      "UD-1" "Booted" 2500 =
      .error "Timeout waiting for simulator UD-1 to reach state: Booted" :=
  C4_waitForSimulatorState_timeout.1 (fun _ => .ok (some demoDevice))
    "UD-1" "Booted" 2500
    (fun k _ => ⟨some demoDevice, rfl, by decide⟩)

/-! ## C5 — the companion connect after boot is not best-effort. -/

/-- A boot environment in which the device boots fine but every
`idb connect` attempt fails. -/
def c5Env : SimulatorManager.BootEnv :=
  { initialInfo := .ok (some demoDevice),
    bootExec := .ok (),
    poll := fun _ => .ok (some bootedDevice),
    connectAttempts := fun _ =>
      .err none (some "connection refused") "idb connect failed" none }

/-- Counterexample for C5: with the device reaching `Booted` on the first
poll and the companion connect failing, `bootSimulatorByUDID` rejects with
the connect error instead of completing successfully — the connect is not
wrapped in any try/catch. -/
theorem C5_counterexample :
    SimulatorManager.bootSimulatorByUDID c5Env 0 30000 "UD-1" =
      .error "Failed to connect to target UD-1: connection refused" ∧
    SimulatorManager.bootSimulatorByUDID c5Env 0 30000 "UD-1" ≠ .ok () := by
  refine ⟨rfl, ?_⟩
  intro h
  rw [show SimulatorManager.bootSimulatorByUDID c5Env 0 30000 "UD-1" =
      .error "Failed to connect to target UD-1: connection refused" from rfl] at h
  exact Except.noConfusion h

/-- C5 (amended): after a successful boot wait, `bootSimulatorByUDID`
awaits `idb.connectToTarget` directly, so a companion-connection failure
propagates and the boot rejects with that error; the best-effort,
logged-only treatment of connect failures belongs to
`ensureIDBConnection` (used by `listBootedSimulators` /
`getCurrentSimulator`), which always resolves and merely logs a warning. -/
theorem C5_boot_connect_failure_propagates :
    (∀ (env : SimulatorManager.BootEnv) (retryAttempts timeoutMs : Nat)
        (udid : String) (info : SimulatorInfo) (e : String),
        env.initialInfo = .ok (some info) → info.state ≠ "Booted" →
        env.bootExec = .ok () →
        SimulatorManager.waitForSimulatorState env.poll udid "Booted"
          timeoutMs = .ok () →
        IDBWrapper.connectToTarget env.connectAttempts retryAttempts udid =
          .error e →
        SimulatorManager.bootSimulatorByUDID env retryAttempts timeoutMs udid =
          .error e) ∧
    (∀ (attempts : Nat → IDBWrapper.ExecOutcome) (retryAttempts : Nat)
        (udid : String),
        (SimulatorManager.ensureIDBConnection attempts retryAttempts udid).1 =
          .ok ()) ∧
    (∀ (attempts : Nat → IDBWrapper.ExecOutcome) (retryAttempts : Nat)
        (udid : String) (e : String),
        IDBWrapper.connectToTarget attempts retryAttempts udid = .error e →
        SimulatorManager.ensureIDBConnection attempts retryAttempts udid =
          (.ok (), [s!"Could not ensure IDB connection for {udid}"])) := by
  refine ⟨?_, ?_, ?_⟩
  · intro env retryAttempts timeoutMs udid info e hinit hstate hboot hwait hconn
    unfold SimulatorManager.bootSimulatorByUDID
    rw [hinit]
    dsimp only
    rw [if_neg hstate, hboot]
    dsimp only
    rw [hwait]
    dsimp only
    exact hconn
  · intro attempts retryAttempts udid
    unfold SimulatorManager.ensureIDBConnection
    cases h : IDBWrapper.connectToTarget attempts retryAttempts udid <;> simp
  · intro attempts retryAttempts udid e h
    unfold SimulatorManager.ensureIDBConnection
    rw [h]

/-- Witness for C5: the propagation conjunct applied to the failing-connect
environment. -/
theorem C5_witness :
    SimulatorManager.bootSimulatorByUDID c5Env 0 30000 "UD-1" =
      .error "Failed to connect to target UD-1: connection refused" :=
  C5_boot_connect_failure_propagates.1 c5Env 0 30000 "UD-1" demoDevice
    "Failed to connect to target UD-1: connection refused"
    rfl (by decide) rfl rfl rfl

/-! ## C3 — `createSimulatorSession` ignores the auto-boot policy. -/

/-- The `createSimulatorSession` argument used in the concrete scenario. -/
def demoCfg : RNSimulatorConfig :=
  { deviceType := "iPhone 15 Pro", iosVersion := none, projectPath := none,
    scheme := none, bundleId := none }

/-- A simulator configuration with the auto-boot policy enabled
(`RN_AUTO_BOOT` unset, so `autoBootOnCreate = true` by default). -/
def autoBootOnCfg : SimConfig :=
  { defaultDevice := "iPhone 15 Pro", defaultIOSVersion := "17.0",
    timeout := 30000, autoBootOnCreate := true }

/-- The session record stored by the concrete createSimulatorSession run. -/
def c3Session : SimulatorSession :=
  { id := "session-1", udid := "UD-1", name := "iPhone 15 Pro",
    state := "inactive", createdAt := 0, projectPath := none,
    bundleId := none }

/-- Counterexample for C3: even with `autoBootOnCreate = true` and a
matching (shut-down) device, `createSimulatorSession` stores the session
with state `"inactive"` and returns — no boot happens and the state is
never set to `"active"` before the id is returned. -/
theorem C3_counterexample :
    SimulatorManager.createSimulatorSession autoBootOnCfg (.ok [demoDevice])
        "session-1" 0 demoCfg [] =
      .ok ("session-1", [("session-1", c3Session)]) ∧
    autoBootOnCfg.autoBootOnCreate = true ∧
    c3Session.state = "inactive" ∧
    ¬c3Session.state = "active" := by
  refine ⟨?_, rfl, rfl, by decide⟩
  rfl

/-- C3 (amended): after a matching device is found,
`createSimulatorSession` stores an inactive session and returns its id
without booting; the stored state is `"inactive"` whatever the value of
`autoBootOnCreate` — the method never consults the flag (the auto-boot
behaviour lives in the create-session tool handler, gated on the tool's
own `autoBoot` argument, not in the manager). -/
theorem C3_createSession_stays_inactive :
    (∀ (simCfg : SimConfig) (sims : List SimulatorInfo) (freshId : String)
        (now : Nat) (cfg : RNSimulatorConfig)
        (store : SimulatorManager.SessionStore) (target : SimulatorInfo),
        sims.find? (SimulatorManager.matchesConfig cfg) = some target →
        SimulatorManager.createSimulatorSession simCfg (.ok sims) freshId now
            cfg store =
          .ok (freshId, mapSet store freshId
            { id := freshId, udid := target.udid, name := target.name,
              state := "inactive", createdAt := now,
              projectPath := cfg.projectPath, bundleId := none })) ∧
    (∀ (simCfg₁ simCfg₂ : SimConfig)
        (lo : Except String (List SimulatorInfo)) (freshId : String)
        (now : Nat) (cfg : RNSimulatorConfig)
        (store : SimulatorManager.SessionStore),
        SimulatorManager.createSimulatorSession simCfg₁ lo freshId now cfg
          store =
        SimulatorManager.createSimulatorSession simCfg₂ lo freshId now cfg
          store) := by
  constructor
  · intro simCfg sims freshId now cfg store target hfind
    unfold SimulatorManager.createSimulatorSession
    dsimp only
    rw [hfind]
  · intro simCfg₁ simCfg₂ lo freshId now cfg store
    rfl

/-- Witness for C3: the amended theorem applied to the concrete run with
auto-boot enabled. -/
theorem C3_witness :
    SimulatorManager.createSimulatorSession autoBootOnCfg (.ok [demoDevice])
        "session-1" 0 demoCfg [] =
      .ok ("session-1", mapSet [] "session-1"
        { id := "session-1", udid := demoDevice.udid, name := demoDevice.name,
          state := "inactive", createdAt := 0,
          projectPath := demoCfg.projectPath, bundleId := none }) :=
  C3_createSession_stays_inactive.1 autoBootOnCfg [demoDevice] "session-1" 0
    demoCfg [] demoDevice (by rfl)

/-! ## C9 — front-door argument validation rejects before the router runs. -/

theorem validatePropertyType_code (k : String) (v : JSVal) (ps : PropSchema)
    (e : MCPServer.McpError)
    (h : MCPServer.validatePropertyType k v ps = .error e) :
    e.code = .invalidRequest := by
  unfold MCPServer.validatePropertyType at h
  repeat' split at h
  all_goals first
    | (cases h; rfl)
    | (exact Except.noConfusion h)

theorem checkRequired_code (args : MCPServer.Args) :
    ∀ (required : List String) (e : MCPServer.McpError),
    MCPServer.checkRequired required args = .error e →
    e.code = .invalidRequest := by
  intro required
  induction required with
  | nil => intro e h; exact Except.noConfusion h
  | cons r rest ih =>
    intro e h
    unfold MCPServer.checkRequired at h
    split at h
    · exact ih e h
    · cases h; rfl

theorem checkEntries_code (properties : List (String × PropSchema)) :
    ∀ (entries : MCPServer.Args) (e : MCPServer.McpError),
    MCPServer.checkEntries properties entries = .error e →
    e.code = .invalidRequest := by
  intro entries
  induction entries with
  | nil => intro e h; exact Except.noConfusion h
  | cons kv rest ih =>
    intro e h
    obtain ⟨k, v⟩ := kv
    unfold MCPServer.checkEntries at h
    split at h
    · split at h
      · cases h
        exact validatePropertyType_code k v _ e (by assumption)
      · exact ih e h
    · exact ih e h

theorem validateToolArguments_code (tool : RegisteredTool)
    (args : MCPServer.Args) (e : MCPServer.McpError)
    (h : MCPServer.validateToolArguments tool args = .error e) :
    e.code = .invalidRequest := by
  unfold MCPServer.validateToolArguments at h
  split at h
  · cases h
    split at *
    · exact checkRequired_code args _ e (by assumption)
    · exact Except.noConfusion (by assumption : Except.ok () = Except.error e)
  · exact checkEntries_code tool.inputSchema.properties args e h

theorem checkRequired_missing (args : MCPServer.Args) :
    ∀ (required : List String) (r : String), r ∈ required →
    args.find? (fun p => p.1 = r) = none →
    ∃ e, MCPServer.checkRequired required args = .error e := by
  intro required
  induction required with
  | nil => intro r hr; exact absurd hr (List.not_mem_nil r)
  | cons r0 rest ih =>
    intro r hr hnone
    unfold MCPServer.checkRequired
    split
    · rcases List.mem_cons.mp hr with heq | hmem
      · subst heq
        rename_i hsome
        rw [hnone] at hsome
        exact absurd hsome (by simp)
      · exact ih r hmem hnone
    · exact ⟨_, rfl⟩

theorem checkEntries_fails (properties : List (String × PropSchema)) :
    ∀ (entries : MCPServer.Args) (k : String) (v : JSVal) (ps : PropSchema)
      (e' : MCPServer.McpError), (k, v) ∈ entries →
    mapGet properties k = some ps →
    MCPServer.validatePropertyType k v ps = .error e' →
    ∃ e, MCPServer.checkEntries properties entries = .error e := by
  intro entries
  induction entries with
  | nil => intro k v ps e' hmem; exact absurd hmem (List.not_mem_nil _)
  | cons kv rest ih =>
    intro k v ps e' hmem hps hval
    obtain ⟨k0, v0⟩ := kv
    rcases List.mem_cons.mp hmem with heq | hmem'
    · obtain ⟨hk, hv⟩ := Prod.mk.injEq .. ▸ heq
      subst hk; subst hv
      unfold MCPServer.checkEntries
      rw [hps]
      dsimp only
      rw [hval]
      exact ⟨e', rfl⟩
    · unfold MCPServer.checkEntries
      split
      · split
        · exact ⟨_, rfl⟩
        · exact ih k v ps e' hmem' hps hval
      · exact ih k v ps e' hmem' hps hval

theorem validatePropertyType_type_mismatch (k : String) (v : JSVal)
    (ps : PropSchema) (ty : String) (hty : ps.type = some ty)
    (hkind : ty = "string" ∨ ty = "number" ∨ ty = "boolean")
    (hne : v.typeOf ≠ ty) :
    ∃ e, MCPServer.validatePropertyType k v ps = .error e := by
  unfold MCPServer.validatePropertyType
  rcases hkind with h | h | h
  · subst h
    rw [if_pos ⟨hty, hne⟩]
    exact ⟨_, rfl⟩
  · subst h
    by_cases h1 : ps.type = some "string" ∧ v.typeOf ≠ "string"
    · rw [if_pos h1]; exact ⟨_, rfl⟩
    · rw [if_neg h1, if_pos ⟨hty, hne⟩]; exact ⟨_, rfl⟩
  · subst h
    by_cases h1 : ps.type = some "string" ∧ v.typeOf ≠ "string"
    · rw [if_pos h1]; exact ⟨_, rfl⟩
    · rw [if_neg h1]
      by_cases h2 : ps.type = some "number" ∧ v.typeOf ≠ "number"
      · rw [if_pos h2]; exact ⟨_, rfl⟩
      · rw [if_neg h2, if_pos ⟨hty, hne⟩]; exact ⟨_, rfl⟩

theorem validatePropertyType_enum_violation (k : String) (v : JSVal)
    (ps : PropSchema) (enumVals : List JSVal) (henum : ps.enum = some enumVals)
    (hmem : enumVals.contains v = false) :
    ∃ e, MCPServer.validatePropertyType k v ps = .error e := by
  unfold MCPServer.validatePropertyType
  by_cases h1 : ps.type = some "string" ∧ v.typeOf ≠ "string"
  · rw [if_pos h1]; exact ⟨_, rfl⟩
  · rw [if_neg h1]
    by_cases h2 : ps.type = some "number" ∧ v.typeOf ≠ "number"
    · rw [if_pos h2]; exact ⟨_, rfl⟩
    · rw [if_neg h2]
      by_cases h3 : ps.type = some "boolean" ∧ v.typeOf ≠ "boolean"
      · rw [if_pos h3]; exact ⟨_, rfl⟩
      · rw [if_neg h3, henum]
        dsimp only
        rw [if_pos (by simp [hmem])]
        exact ⟨_, rfl⟩

theorem validateToolArguments_fails_entries (tool : RegisteredTool)
    (args : MCPServer.Args) (k : String) (v : JSVal) (ps : PropSchema)
    (e' : MCPServer.McpError) (hmem : (k, v) ∈ args)
    (hps : mapGet tool.inputSchema.properties k = some ps)
    (hval : MCPServer.validatePropertyType k v ps = .error e') :
    ∃ e, MCPServer.validateToolArguments tool args = .error e := by
  unfold MCPServer.validateToolArguments
  split
  · exact ⟨_, rfl⟩
  · exact checkEntries_fails tool.inputSchema.properties args k v ps e' hmem
      hps hval

theorem callToolHandler_validation_error (reg : ToolRegistry.Registry)
    (name : String) (tool : RegisteredTool) (args : MCPServer.Args)
    (e : MCPServer.McpError)
    (hget : ToolRegistry.getTool reg name = some tool)
    (hval : MCPServer.validateToolArguments tool args = .error e) :
    ∀ router, MCPServer.callToolHandler reg router name (some args) =
      .error e := by
  intro router
  unfold MCPServer.callToolHandler
  rw [hget]
  dsimp only [Option.getD]
  rw [hval]

/-- C9: every argument-validation failure of the front door carries the
`InvalidRequest` code; a call whose arguments miss a schema-required
property, have the wrong declared primitive type (string / number /
boolean), or fall outside a declared enum is rejected with such an error
for every possible router — i.e. before `CommandRouter.executeCommand` or
the handler can run — and `InvalidRequest` is distinct from the
`InternalError` code used for runtime failures. -/
theorem C9_front_door_validation :
    (∀ (tool : RegisteredTool) (args : MCPServer.Args)
        (e : MCPServer.McpError),
        MCPServer.validateToolArguments tool args = .error e →
        e.code = .invalidRequest) ∧
    (∀ (reg : ToolRegistry.Registry) (name : String) (tool : RegisteredTool)
        (args : MCPServer.Args) (r : String) (required : List String),
        ToolRegistry.getTool reg name = some tool →
        tool.inputSchema.required = some required → r ∈ required →
        args.find? (fun p => p.1 = r) = none →
        ∃ e : MCPServer.McpError, e.code = .invalidRequest ∧
          ∀ router, MCPServer.callToolHandler reg router name (some args) =
            .error e) ∧
    (∀ (reg : ToolRegistry.Registry) (name : String) (tool : RegisteredTool)
        (args : MCPServer.Args) (k : String) (v : JSVal) (ps : PropSchema)
        (ty : String),
        ToolRegistry.getTool reg name = some tool → (k, v) ∈ args →
        mapGet tool.inputSchema.properties k = some ps →
        ps.type = some ty → (ty = "string" ∨ ty = "number" ∨ ty = "boolean") →
        v.typeOf ≠ ty →
        ∃ e : MCPServer.McpError, e.code = .invalidRequest ∧
          ∀ router, MCPServer.callToolHandler reg router name (some args) =
            .error e) ∧
    (∀ (reg : ToolRegistry.Registry) (name : String) (tool : RegisteredTool)
        (args : MCPServer.Args) (k : String) (v : JSVal) (ps : PropSchema)
        (enumVals : List JSVal),
        ToolRegistry.getTool reg name = some tool → (k, v) ∈ args →
        mapGet tool.inputSchema.properties k = some ps →
        ps.enum = some enumVals → enumVals.contains v = false →
        ∃ e : MCPServer.McpError, e.code = .invalidRequest ∧
          ∀ router, MCPServer.callToolHandler reg router name (some args) =
            .error e) ∧
    MCPServer.ErrorCode.invalidRequest ≠ MCPServer.ErrorCode.internalError := by
  refine ⟨validateToolArguments_code, ?_, ?_, ?_, by decide⟩
  · intro reg name tool args r required hget hreq hr hnone
    obtain ⟨e0, h0⟩ : ∃ e0, MCPServer.checkRequired required args = .error e0 :=
      checkRequired_missing args required r hr hnone
    have hval : MCPServer.validateToolArguments tool args = .error e0 := by
      unfold MCPServer.validateToolArguments
      rw [hreq]
      dsimp only
      rw [h0]
    exact ⟨e0, validateToolArguments_code tool args e0 hval,
      callToolHandler_validation_error reg name tool args e0 hget hval⟩
  · intro reg name tool args k v ps ty hget hmem hps hty hkind hne
    obtain ⟨e', hval'⟩ :=
      validatePropertyType_type_mismatch k v ps ty hty hkind hne
    obtain ⟨e0, h0⟩ :=
      validateToolArguments_fails_entries tool args k v ps e' hmem hps hval'
    exact ⟨e0, validateToolArguments_code tool args e0 h0,
      callToolHandler_validation_error reg name tool args e0 hget h0⟩
  · intro reg name tool args k v ps enumVals hget hmem hps henum hcont
    obtain ⟨e', hval'⟩ :=
      validatePropertyType_enum_violation k v ps enumVals henum hcont
    obtain ⟨e0, h0⟩ :=
      validateToolArguments_fails_entries tool args k v ps e' hmem hps hval'
    exact ⟨e0, validateToolArguments_code tool args e0 h0,
      callToolHandler_validation_error reg name tool args e0 hget h0⟩

/-- A tool with one required string-typed property, for the C9 scenario. -/
def c9Tool : RegisteredTool :=
  { name := "create_session", description := "create a simulator session",
    inputSchema :=
      { properties := [("deviceType", { type := some "string", enum := none })],
        required := some ["deviceType"] },
    category := "simulator", handler := fun _ => .ok .vNull }

/-- Registry holding the C9 tool. -/
def c9Reg : ToolRegistry.Registry :=
  ToolRegistry.registerTool ToolRegistry.empty c9Tool

/-- Witness for C9: calling the tool with empty arguments (missing the
required `deviceType`) is rejected with an `InvalidRequest` error for
every router. -/
theorem C9_witness :
    ∃ e : MCPServer.McpError, e.code = .invalidRequest ∧
      ∀ router, MCPServer.callToolHandler c9Reg router "create_session"
        (some []) = .error e :=
  C9_front_door_validation.2.1 c9Reg "create_session" c9Tool [] "deviceType"
    ["deviceType"] rfl rfl (by simp) rfl

/-! ## C10 — `terminateSimulatorSession` is not atomic on failure. -/

/-- C10: an unknown session throws without touching the store; if the
device-info lookup or the shutdown throws, the error propagates and the
session is left in the store under its prior record (neither marked
terminated nor deleted); when lookup/shutdown succeed the session is
removed — for every outcome of the two companion disconnects, since
`disconnectFromTarget` never throws and only logs a warning on failure. -/
theorem C10_terminate_not_atomic :
    (∀ (env : SimulatorManager.TerminateEnv) (timeoutMs : Nat)
        (store : SimulatorManager.SessionStore) (sid : String),
        mapGet store sid = none →
        SimulatorManager.terminateSimulatorSession env timeoutMs store sid =
          (.error s!"Session not found: {sid}", store)) ∧
    (∀ (env : SimulatorManager.TerminateEnv) (timeoutMs : Nat)
        (store : SimulatorManager.SessionStore) (sid : String)
        (session : SimulatorSession) (e : String),
        mapGet store sid = some session →
        env.listOutcome = .error e →
        SimulatorManager.terminateSimulatorSession env timeoutMs store sid =
          (.error e, store) ∧
        mapGet (SimulatorManager.terminateSimulatorSession env timeoutMs store
          sid).2 sid = some session) ∧
    (∀ (env : SimulatorManager.TerminateEnv) (timeoutMs : Nat)
        (store : SimulatorManager.SessionStore) (sid : String)
        (session : SimulatorSession) (info : SimulatorInfo) (e : String),
        mapGet store sid = some session →
        SimulatorManager.getSimulatorInfo env.listOutcome session.udid =
          .ok (some info) →
        info.state = "Booted" →
        SimulatorManager.shutdownSimulatorByUDID env.shutdownEnv timeoutMs
          session.udid = .error e →
        SimulatorManager.terminateSimulatorSession env timeoutMs store sid =
          (.error e, store) ∧
        mapGet (SimulatorManager.terminateSimulatorSession env timeoutMs store
          sid).2 sid = some session) ∧
    (∀ (env : SimulatorManager.TerminateEnv) (timeoutMs : Nat)
        (store : SimulatorManager.SessionStore) (sid : String)
        (session : SimulatorSession) (simulatorInfo : Option SimulatorInfo),
        mapGet store sid = some session →
        SimulatorManager.getSimulatorInfo env.listOutcome session.udid =
          .ok simulatorInfo →
        (∀ i, simulatorInfo = some i → i.state = "Booted" →
          SimulatorManager.shutdownSimulatorByUDID env.shutdownEnv timeoutMs
            session.udid = .ok ()) →
        SimulatorManager.terminateSimulatorSession env timeoutMs store sid =
          (.ok (), mapDelete store sid)) ∧
    (∀ (o : IDBWrapper.ExecOutcome) (udid : String),
        ((IDBWrapper.executeCommand o).success = true →
          IDBWrapper.disconnectFromTarget o udid = ((), [])) ∧
        ((IDBWrapper.executeCommand o).success = false →
          IDBWrapper.disconnectFromTarget o udid =
            ((), [s!"Failed to disconnect from target {udid}: {(IDBWrapper.executeCommand o).stderr}"]))) := by
  refine ⟨?_, ?_, ?_, ?_, ?_⟩
  · intro env timeoutMs store sid hnone
    unfold SimulatorManager.terminateSimulatorSession
    rw [hnone]
  · intro env timeoutMs store sid session e hsess hlist
    have hinfo : SimulatorManager.getSimulatorInfo env.listOutcome
        session.udid = .error e := by
      unfold SimulatorManager.getSimulatorInfo
      rw [hlist]
    have hres : SimulatorManager.terminateSimulatorSession env timeoutMs store
        sid = (.error e, store) := by
      unfold SimulatorManager.terminateSimulatorSession
      rw [hsess]
      dsimp only
      rw [hinfo]
    exact ⟨hres, by rw [hres]; exact hsess⟩
  · intro env timeoutMs store sid session info e hsess hinfo hbooted hshut
    have hres : SimulatorManager.terminateSimulatorSession env timeoutMs store
        sid = (.error e, store) := by
      unfold SimulatorManager.terminateSimulatorSession
      rw [hsess]
      dsimp only
      rw [hinfo]
      dsimp only
      rw [if_pos hbooted, hshut]
    exact ⟨hres, by rw [hres]; exact hsess⟩
  · intro env timeoutMs store sid session simulatorInfo hsess hinfo hshut
    unfold SimulatorManager.terminateSimulatorSession
    rw [hsess]
    dsimp only
    rw [hinfo]
    dsimp only
    cases simulatorInfo with
    | none => rfl
    | some i =>
      dsimp only
      by_cases hb : i.state = "Booted"
      · rw [if_pos hb, hshut i rfl hb]
      · rw [if_neg hb]
  · intro o udid
    constructor
    · intro h
      unfold IDBWrapper.disconnectFromTarget
      rw [if_pos h]
    · intro h
      unfold IDBWrapper.disconnectFromTarget
      rw [if_neg (by simp [h])]

/-- A terminate environment whose device enumeration always throws. -/
def c10Env : SimulatorManager.TerminateEnv :=
  { listOutcome := .error "Failed to list simulators: boom",
    shutdownEnv :=
      { disconnectExec := failingExec, shutdownExec := .ok (),
        poll := fun _ => .ok (some demoDevice) },
    finalDisconnectExec := failingExec }

/-- Witness for C10: with a known session and a throwing device-info
lookup, the error propagates and the session survives in the store with
its prior (inactive) state. -/
theorem C10_witness :
    SimulatorManager.terminateSimulatorSession c10Env 30000
        [("session-1", c3Session)] "session-1" =
      (.error "Failed to list simulators: boom", [("session-1", c3Session)]) ∧
    mapGet (SimulatorManager.terminateSimulatorSession c10Env 30000
        [("session-1", c3Session)] "session-1").2 "session-1" =
      some c3Session :=
  C10_terminate_not_atomic.2.1 c10Env 30000 [("session-1", c3Session)]
    "session-1" c3Session "Failed to list simulators: boom" rfl rfl
